import Mathlib

/-
  Verification development for the PollPulse real-time results subsystem.

  The definitions below are a shallow embedding of the client-side code:
  - `Hook.*`    embeds src/src/hooks/useSignalR.ts (the canonical hook);
  - `HookV2.*`  embeds the enhanced hook draft (unnamed/part_010);
  - `Page.*`    embeds the inline subscription of
                src/src/app/election/[id]/results/page.tsx (first variant);
  - `Display.*` embeds the chartData mapping of
                src/src/components/ResultsDisplay.tsx;
  - `Lifecycle.*` embeds the React effect lifecycle contract that the hook
                relies on (cleanup of the previous effect run, then the new
                effect body, on every dependency change; cleanup alone on
                unmount).

  Machine numbers are modelled as Int/Nat; the wire `percentage` field (a JS
  number) is modelled as Rat, which is faithful here because the client never
  performs arithmetic on it — it only passes it through verbatim.
-/

namespace PollPulse

/-- Wire/data model: src/src/types/index.ts, interface VoteResult. -/
structure VoteResult where
  id : Int
  candidateId : Int
  candidateName : String
  position : String
  voteCount : Nat
  percentage : Rat
deriving DecidableEq

/-- The transport library connection states (signalR.HubConnectionState). -/
inductive HubConnectionState where
  | Connecting
  | Connected
  | Disconnected
  | Reconnecting
  | Disconnecting
deriving DecidableEq

/-- Consumer-facing status type of useSignalR.ts line 7:
    type ConnectionStatus = connecting | connected | reconnecting | disconnected. -/
inductive ConnectionStatus where
  | connecting
  | connected
  | reconnecting
  | disconnected
deriving DecidableEq

/-- Observable side effects of the hook code. `invokeCatchLog m` is an
    invocation of hub method m whose rejection is caught and logged
    (invoke(...).catch(err => console.log/error(err))), i.e. failures are
    logged, never escalated. `log` is a bare console log. -/
inductive Action where
  | fetchSnapshot
  | buildConnection
  | startTransport
  | invoke (method : String)
  | invokeCatchLog (method : String)
  | stopTransport
  | log (msg : String)
deriving DecidableEq

/-- JS truthiness of the token argument: null and the empty string are falsy. -/
def tokenTruthy : Option String → Bool
  | none => false
  | some s => s ≠ ""

namespace Hook

/-- The consumer-visible view of useSignalR.ts: the hook returns
    { results, connectionStatus, isPulsing } (line 96). There is no error
    field in this view. -/
structure HookView where
  results : List VoteResult
  connectionStatus : ConnectionStatus
  isPulsing : Bool
deriving DecidableEq

/-- Initial state of the hook (useSignalR.ts lines 10-12): results = [],
    connectionStatus = connecting, isPulsing = false. -/
def initialHookView : HookView :=
  { results := [], connectionStatus := ConnectionStatus.connecting, isPulsing := false }

/-- The stateMap of updateStatus (useSignalR.ts lines 49-55), mapping the
    transport state to the consumer-facing status. -/
def stateMap : HubConnectionState → ConnectionStatus
  | HubConnectionState.Connecting => ConnectionStatus.connecting
  | HubConnectionState.Connected => ConnectionStatus.connected
  | HubConnectionState.Disconnected => ConnectionStatus.disconnected
  | HubConnectionState.Reconnecting => ConnectionStatus.reconnecting
  | HubConnectionState.Disconnecting => ConnectionStatus.disconnected

/-- The ReceiveResults handler (useSignalR.ts lines 61-65):
    setResults(newResults); setIsPulsing(true). The handler is unconditional:
    it consults no epoch, generation token, or teardown flag. -/
def handleReceiveResults (v : HookView) (newResults : List VoteResult) : HookView :=
  { v with results := newResults, isPulsing := true }

/-- The synchronous body of the effect (useSignalR.ts lines 15-46):
    guard on token/electionId/isElectionActive, then the snapshot fetch is
    issued, then either the inactive-election early return (status
    disconnected, no connection) or the connection is built and started. -/
structure EffectResult where
  view : HookView
  actions : List Action
  connectionBuilt : Bool
deriving DecidableEq

/-- Embeds the effect body of useSignalR.ts lines 15-46 as a function of the
    hook arguments and the state when the effect runs. -/
def runEffectBody (electionId : Int) (token : Option String)
    (isElectionActive : Option Bool) (v : HookView) : EffectResult :=
  if !tokenTruthy token || electionId == 0 || isElectionActive == none then
    { view := { v with connectionStatus := ConnectionStatus.disconnected },
      actions := [], connectionBuilt := false }
  else if isElectionActive == some false then
    { view := { v with connectionStatus := ConnectionStatus.disconnected },
      actions := [Action.fetchSnapshot], connectionBuilt := false }
  else
    { view := v,
      actions := [Action.fetchSnapshot, Action.buildConnection, Action.startTransport],
      connectionBuilt := true }

/-- Outcome of the fetchInitialResults closure (useSignalR.ts lines 23-30):
    on success the results state is replaced; on failure the error is only
    written to the console (console.error) — the view is left unchanged and
    no error state exists to be set. -/
def fetchInitialResultsStep (outcome : Except String (List VoteResult))
    (v : HookView) : HookView × List Action :=
  match outcome with
  | Except.ok rs => ({ v with results := rs }, [])
  | Except.error e => (v, [Action.log ("Failed to fetch initial results: " ++ e)])

/-- Transport lifecycle events delivered to the registered handlers. -/
inductive TransportEvent where
  | reconnecting
  | reconnected
  | closed
deriving DecidableEq

/-- The handlers registered on useSignalR.ts lines 67-73. Each calls
    updateStatus, which reads the connection state at call time
    (Reconnecting inside onreconnecting, Connected inside onreconnected,
    Disconnected inside onclose) and maps it through stateMap; onreconnected
    additionally re-invokes JoinElectionGroup and GetLiveResults, each with
    a logged catch. -/
def handleTransportEvent (v : HookView) (e : TransportEvent) : HookView × List Action :=
  match e with
  | TransportEvent.reconnecting =>
      ({ v with connectionStatus := stateMap HubConnectionState.Reconnecting }, [])
  | TransportEvent.reconnected =>
      ({ v with connectionStatus := stateMap HubConnectionState.Connected },
       [Action.invokeCatchLog "JoinElectionGroup", Action.invokeCatchLog "GetLiveResults"])
  | TransportEvent.closed =>
      ({ v with connectionStatus := stateMap HubConnectionState.Disconnected }, [])

/-- Statuses observed by the consumer after each transport event. -/
def statusTrace (v : HookView) : List TransportEvent → List ConnectionStatus
  | [] => []
  | e :: es =>
      let p := handleTransportEvent v e
      p.1.connectionStatus :: statusTrace p.1 es

/-- Actions emitted while processing a sequence of transport events. -/
def eventActions (v : HookView) : List TransportEvent → List Action
  | [] => []
  | e :: es =>
      let p := handleTransportEvent v e
      p.2 ++ eventActions p.1 es

/-- The effect cleanup of useSignalR.ts lines 88-93: it calls stop() on the
    stored connection, nothing else — in particular no LeaveElectionGroup
    invocation precedes the stop. -/
def hookCleanupActions : List Action := [Action.stopTransport]

/-- One open subscription session, as needed to talk about pushes arriving
    around teardown. `teardownInitiated` records that the cleanup ran (stop()
    was called, the ref was nulled); `transportStopped` records that the
    asynchronous stop has completed, after which the transport delivers no
    further events. -/
structure Session where
  view : HookView
  teardownInitiated : Bool
  transportStopped : Bool
deriving DecidableEq

inductive SessionEvent where
  | push (data : List VoteResult)
  | initiateTeardown
  | stopComplete
deriving DecidableEq

/-- Session step. A push that the transport still delivers (stop not yet
    complete) runs handleReceiveResults unconditionally — the source handler
    performs no epoch/generation/teardown check; once the transport has
    stopped, no handler fires. Teardown initiation itself (the cleanup of
    lines 88-93) only calls stop() and nulls the ref. -/
def stepSession (s : Session) (e : SessionEvent) : Session :=
  match e with
  | SessionEvent.push data =>
      if s.transportStopped then s
      else { s with view := handleReceiveResults s.view data }
  | SessionEvent.initiateTeardown => { s with teardownInitiated := true }
  | SessionEvent.stopComplete => { s with transportStopped := true }

end Hook

namespace HookV2

/-- State of the enhanced hook draft (unnamed/part_010). Its consumer view is
    { connection, status, methods, results, error, isLoading } where status is
    { connectionStatus (three-valued), isPulsing }. `isMounted` models
    isMountedRef.current. -/
structure HubState where
  results : List VoteResult
  connectionStatus : ConnectionStatus
  isPulsing : Bool
  error : Option String
  isLoading : Bool
  isMounted : Bool
deriving DecidableEq

/-- Initial state (part_010 lines 113-131): results = [], status =
    { connectionStatus: disconnected, isPulsing: false }, error = null,
    isLoading = false, mounted. -/
def initialHubState : HubState :=
  { results := [], connectionStatus := ConnectionStatus.disconnected,
    isPulsing := false, error := none, isLoading := false, isMounted := true }

/-- mapHubState (part_010 lines 145-159): Connecting/Connected/Reconnecting
    map to themselves, everything else to disconnected. -/
def mapHubState : HubConnectionState → ConnectionStatus
  | HubConnectionState.Connecting => ConnectionStatus.connecting
  | HubConnectionState.Connected => ConnectionStatus.connected
  | HubConnectionState.Reconnecting => ConnectionStatus.reconnecting
  | _ => ConnectionStatus.disconnected

/-- updateStatus (part_010 lines 166-182): returns early when unmounted;
    otherwise maps the transport state and collapses connecting to
    disconnected before exposing it, setting isPulsing alongside. -/
def updateStatus (state : HubConnectionState) (pulsing : Bool) (s : HubState) : HubState :=
  if s.isMounted then
    let mapped := mapHubState state
    let uiStatus := if mapped = ConnectionStatus.connecting
      then ConnectionStatus.disconnected else mapped
    { s with connectionStatus := uiStatus, isPulsing := pulsing }
  else s

/-- handleError (part_010 lines 189-198): logs to the console, then — when
    still mounted — sets the error string "context: message" and clears the
    loading flag. Console logging is implicit here. -/
def handleError (context msg : String) (s : HubState) : HubState :=
  if s.isMounted then
    { s with error := some (context ++ ": " ++ msg), isLoading := false }
  else s

/-- fetchInitialResults (part_010 lines 240-250): on success sets results and
    clears loading when mounted; on failure delegates to handleError with
    context "Initial Data Fetch". -/
def fetchInitialResults (outcome : Except String (List VoteResult)) (s : HubState) : HubState :=
  match outcome with
  | Except.ok rs => if s.isMounted then { s with results := rs, isLoading := false } else s
  | Except.error e => handleError "Initial Data Fetch" e s

/-- handleReceiveResults (part_010 lines 343-369): returns early when
    unmounted; a non-array payload (modelled as none) is routed to
    handleError and discarded; otherwise results are replaced wholesale,
    the error is cleared, and updateStatus(hub.state, true) starts the
    pulse. `hubState` is the transport state read at delivery time. -/
def handleReceiveResults (hubState : HubConnectionState)
    (data : Option (List VoteResult)) (s : HubState) : HubState :=
  if s.isMounted then
    match data with
    | none => handleError "Results Update" "Invalid results format" s
    | some rs => updateStatus hubState true { s with results := rs, error := none }
  else s

end HookV2

namespace Page

/-- The effect cleanup of the first results-page variant
    (src/src/app/election/[id]/results/page.tsx lines 107-112): it invokes
    LeaveElectionGroup — with a logged catch — only when the connection state
    is currently Connected, then stops the connection unconditionally. -/
def pageCleanupActions (st : HubConnectionState) : List Action :=
  (if st == HubConnectionState.Connected
    then [Action.invokeCatchLog "LeaveElectionGroup"] else [])
    ++ [Action.stopTransport]

end Page

namespace Display

/-- One entry of the chartData array of ResultsDisplay.tsx lines 22-26. -/
structure ChartDatum where
  name : String
  votes : Nat
  percentage : Rat
deriving DecidableEq

/-- chartData (ResultsDisplay.tsx lines 22-26): maps each received result to
    { name, votes, percentage } — the percentage is copied from the wire
    field, not recomputed — then sorts by votes descending (JS stable sort
    with comparator (a, b) => b.votes - a.votes). -/
def chartData (results : List VoteResult) : List ChartDatum :=
  (results.map fun r =>
      { name := r.candidateName, votes := r.voteCount, percentage := r.percentage })
    |>.mergeSort (fun a b => decide (b.votes ≤ a.votes))

/-- totalVotes (ResultsDisplay.tsx line 29): sum of the voteCount fields. -/
def totalVotes (results : List VoteResult) : Nat :=
  (results.map fun r => r.voteCount).sum

end Display

namespace Lifecycle

/-- WatchTarget of the spec data model: the pair of effect dependencies
    (electionId, isElectionActive) that, together with the token, select the
    subscription (useSignalR.ts line 94 dependency array). -/
structure WatchTarget where
  electionId : Int
  isElectionActive : Option Bool
deriving DecidableEq

/-- Lifecycle-level actions: closing (stop()) a stored handle, opening
    (building + starting) a fresh one. Handles carry a numeric identity so
    that distinct connections built over time stay distinct. -/
inductive LAction where
  | closeHandle (hid : Nat)
  | openHandle (hid : Nat)
deriving DecidableEq

/-- Manager state: connectionRef holds at most one connection (the ref is
    nulled by the cleanup); nextId numbers the connections built so far. -/
structure MState where
  current : Option Nat
  nextId : Nat
deriving DecidableEq

def initialMState : MState := { current := none, nextId := 0 }

/-- The effect cleanup (useSignalR.ts lines 88-93): stop whatever connection
    the ref holds — even one whose start() is still in flight — and null the
    ref. -/
def cleanup (s : MState) : MState × List LAction :=
  match s.current with
  | some h => ({ s with current := none }, [LAction.closeHandle h])
  | none => (s, [])

/-- Whether the effect body builds a connection (useSignalR.ts lines 17-44):
    only when the guard passes and the election is active. -/
def effectOpens (t : WatchTarget) (token : Option String) : Bool :=
  tokenTruthy token && t.electionId != 0 && t.isElectionActive == some true

/-- The effect body at lifecycle granularity: build and start a fresh
    connection exactly when effectOpens holds. -/
def body (t : WatchTarget) (token : Option String) (s : MState) : MState × List LAction :=
  if effectOpens t token then
    ({ current := some s.nextId, nextId := s.nextId + 1 }, [LAction.openHandle s.nextId])
  else (s, [])

/-- Consumer lifecycle events. `run t token` is a mount or a change of any
    effect dependency (electionId, isElectionActive, token): per the React
    effect contract the previous cleanup runs first, then the new body.
    `unmount` runs the cleanup alone. -/
inductive LEvent where
  | run (t : WatchTarget) (token : Option String)
  | unmount

/-- One lifecycle step: state after the event plus the actions it emitted,
    in order. -/
def stepManager (s : MState) (e : LEvent) : MState × List LAction :=
  match e with
  | LEvent.run t token =>
      let p := cleanup s
      let q := body t token p.1
      (q.1, p.2 ++ q.2)
  | LEvent.unmount => cleanup s

/-- The chronological action trace of a whole event sequence. -/
def managerTrace (s : MState) : List LEvent → List LAction
  | [] => []
  | e :: es =>
      let p := stepManager s e
      p.2 ++ managerTrace p.1 es

/-- Checker for the subscription invariant over an action trace, threading
    the handle currently open (if any): an open is legal only when nothing
    is open, and a close must name exactly the handle that is open. A trace
    accepted from `none` therefore has at most one live subscription at
    every point, and every open is preceded by the release of the prior
    handle. -/
def wellFormedFrom : Option Nat → List LAction → Bool
  | _, [] => true
  | none, LAction.openHandle h :: rest => wellFormedFrom (some h) rest
  | some _, LAction.openHandle _ :: _ => false
  | some h, LAction.closeHandle h2 :: rest => h == h2 && wellFormedFrom none rest
  | none, LAction.closeHandle _ :: _ => false

end Lifecycle

/-
  Helper lemmas shared by the claim theorems.
-/

/-- The chart percentages are a reordering of the wire percentages: chartData
    only sorts by vote count, it does not touch the percentage field. -/
theorem chartData_percentage_perm (results : List VoteResult) :
    ((Display.chartData results).map fun d => d.percentage).Perm
      (results.map fun r => r.percentage) := by
  have h := (List.mergeSort_perm
      (results.map fun r =>
        ({ name := r.candidateName, votes := r.voteCount,
           percentage := r.percentage } : Display.ChartDatum))
      (fun a b => decide (b.votes ≤ a.votes))).map
      (fun d : Display.ChartDatum => d.percentage)
  simpa [Display.chartData, List.map_map, Function.comp] using h

/-- The lifecycle action trace emitted from any manager state is accepted by
    the invariant checker seeded with that state's current handle. -/
theorem wellFormedFrom_managerTrace (evs : List Lifecycle.LEvent) (s : Lifecycle.MState) :
    Lifecycle.wellFormedFrom s.current (Lifecycle.managerTrace s evs) = true := by
  induction evs generalizing s with
  | nil => cases s.current <;> rfl
  | cons e es ih =>
    cases e with
    | run t token =>
      cases hc : s.current with
      | none =>
        by_cases ho : Lifecycle.effectOpens t token
        · simpa [Lifecycle.managerTrace, Lifecycle.stepManager, Lifecycle.cleanup,
            Lifecycle.body, hc, ho, Lifecycle.wellFormedFrom] using
            ih { current := some s.nextId, nextId := s.nextId + 1 }
        · simpa [Lifecycle.managerTrace, Lifecycle.stepManager, Lifecycle.cleanup,
            Lifecycle.body, hc, ho, Lifecycle.wellFormedFrom] using ih s
      | some h =>
        by_cases ho : Lifecycle.effectOpens t token
        · simpa [Lifecycle.managerTrace, Lifecycle.stepManager, Lifecycle.cleanup,
            Lifecycle.body, hc, ho, Lifecycle.wellFormedFrom] using
            ih { current := some s.nextId, nextId := s.nextId + 1 }
        · simpa [Lifecycle.managerTrace, Lifecycle.stepManager, Lifecycle.cleanup,
            Lifecycle.body, hc, ho, Lifecycle.wellFormedFrom] using
            ih { s with current := none }
    | unmount =>
      cases hc : s.current with
      | none =>
        simpa [Lifecycle.managerTrace, Lifecycle.stepManager, Lifecycle.cleanup,
          hc, Lifecycle.wellFormedFrom] using ih s
      | some h =>
        simpa [Lifecycle.managerTrace, Lifecycle.stepManager, Lifecycle.cleanup,
          hc, Lifecycle.wellFormedFrom] using ih { s with current := none }

/-
  Claim theorems.
-/

/-- Concrete sample entries used by the counterexamples and witnesses. -/
def sampleA : VoteResult :=
  { id := 1, candidateId := 1, candidateName := "Alice", position := "President",
    voteCount := 3, percentage := 75 }

/-- Second concrete sample entry. -/
def sampleB : VoteResult :=
  { id := 2, candidateId := 2, candidateName := "Bob", position := "President",
    voteCount := 5, percentage := 100 }

/-- Wire payload entry whose server-sent percentage (10) is inconsistent with
    its vote count (3 of 4). -/
def wireA : VoteResult :=
  { id := 1, candidateId := 1, candidateName := "Alice", position := "President",
    voteCount := 3, percentage := 10 }

/-- Wire payload entry whose server-sent percentage (10) is inconsistent with
    its vote count (1 of 4). -/
def wireB : VoteResult :=
  { id := 2, candidateId := 2, candidateName := "Bob", position := "President",
    voteCount := 1, percentage := 10 }

/-- C1, counterexample. The claim says a results push arriving after
    teardown/close has been initiated is discarded via an epoch/generation
    check and never changes currentView().results. The ReceiveResults handler
    of useSignalR.ts lines 61-65 performs no such check: in a session where
    teardown has been initiated but the asynchronous stop() has not yet
    completed, a delivered push still replaces the results. -/
theorem claim_C1_counterexample :
    (Hook.stepSession
      { view := { results := [sampleA],
                  connectionStatus := ConnectionStatus.connected, isPulsing := false },
        teardownInitiated := true, transportStopped := false }
      (Hook.SessionEvent.push [sampleB])).view.results ≠ [sampleA] := by
  simp [Hook.stepSession, Hook.handleReceiveResults, sampleA, sampleB]

/-- C1, amended. Teardown initiation performs no epoch or generation marking:
    a push that the transport still delivers after close() has been initiated
    is applied to the view exactly like any other push (the handler is
    unconditional); pushes stop affecting the view only because a fully
    stopped transport delivers no events at all. -/
theorem claim_C1_amended (s : Hook.Session) (data : List VoteResult) :
    (s.transportStopped = false →
      (Hook.stepSession s (Hook.SessionEvent.push data)).view.results = data) ∧
    (s.transportStopped = true →
      Hook.stepSession s (Hook.SessionEvent.push data) = s) := by
  constructor <;> intro h <;>
    simp [Hook.stepSession, h, Hook.handleReceiveResults]

/-- C1, witness for the amended theorem at a concrete session and push. -/
theorem claim_C1_amended_witness :
    (Hook.stepSession
      { view := Hook.initialHookView, teardownInitiated := true, transportStopped := false }
      (Hook.SessionEvent.push [])).view.results = ([] : List VoteResult) :=
  (claim_C1_amended
    { view := Hook.initialHookView, teardownInitiated := true, transportStopped := false }
    []).1 rfl

/-- C2, counterexample. The claim says percentages are recomputed locally
    from voteCounts and never taken verbatim from the wire, so that they sum
    to 100 whenever total votes are positive. In fact both the push handler
    and chartData pass the wire percentage through unchanged: a payload with
    voteCounts 3 and 1 but wire percentages 10 and 10 is exposed with
    percentages summing to 20, not 100, although 4 votes were cast. -/
theorem claim_C2_counterexample :
    (Hook.handleReceiveResults Hook.initialHookView [wireA, wireB]).results.map
      (fun r => r.percentage) = [10, 10] ∧
    Display.totalVotes [wireA, wireB] = 4 ∧
    ((Display.chartData [wireA, wireB]).map (fun d => d.percentage)).sum ≠ 100 := by
  refine ⟨rfl, rfl, ?_⟩
  have h := (chartData_percentage_perm [wireA, wireB]).sum_eq
  rw [h]
  norm_num [wireA, wireB]

/-- C2, amended. Each exposed percentage is taken verbatim from the wire
    payload at every stage: the snapshot seed stores the fetched set
    unchanged, every push stores the pushed set unchanged, and chartData maps
    each wire percentage into the chart entry (reordering by vote count
    only). No local recomputation exists, so the exposed percentages sum to
    100 exactly when the server-sent ones do. -/
theorem claim_C2_amended (v : Hook.HookView) (wire : List VoteResult) :
    (Hook.fetchInitialResultsStep (Except.ok wire) v).1.results = wire ∧
    (Hook.handleReceiveResults v wire).results = wire ∧
    ((Display.chartData wire).map fun d => d.percentage).Perm
      (wire.map fun r => r.percentage) :=
  ⟨rfl, rfl, chartData_percentage_perm wire⟩

/-- C3. Over every sequence of lifecycle events (mounts, changes of
    electionId / isElectionActive / token, unmounts), the emitted action
    trace keeps at most one subscription handle open at every point and
    opens a new handle only after the previously open one was closed;
    moreover unmount, and any dependency change, first closes the handle
    currently held (and unmount leaves none). -/
theorem claim_C3_single_subscription :
    (∀ evs : List Lifecycle.LEvent,
      Lifecycle.wellFormedFrom none (Lifecycle.managerTrace Lifecycle.initialMState evs) = true) ∧
    (∀ (s : Lifecycle.MState) (h : Nat), s.current = some h →
      (Lifecycle.stepManager s Lifecycle.LEvent.unmount).1.current = none ∧
      (Lifecycle.stepManager s Lifecycle.LEvent.unmount).2 = [Lifecycle.LAction.closeHandle h]) ∧
    (∀ (s : Lifecycle.MState) (h : Nat) (t : Lifecycle.WatchTarget) (token : Option String),
      s.current = some h →
      ∃ rest, (Lifecycle.stepManager s (Lifecycle.LEvent.run t token)).2 =
        Lifecycle.LAction.closeHandle h :: rest) := by
  refine ⟨fun evs => wellFormedFrom_managerTrace evs Lifecycle.initialMState, ?_, ?_⟩
  · intro s h hc
    simp [Lifecycle.stepManager, Lifecycle.cleanup, hc]
  · intro s h t token hc
    by_cases ho : Lifecycle.effectOpens t token <;>
      simp [Lifecycle.stepManager, Lifecycle.cleanup, Lifecycle.body, hc, ho]

/-- C3, witness: a rapid E1 to E2 and back to E1 target change followed by
    unmount yields a well-formed trace, and from a state holding handle 0 an
    unmount closes exactly that handle. -/
theorem claim_C3_single_subscription_witness :
    Lifecycle.wellFormedFrom none
      (Lifecycle.managerTrace Lifecycle.initialMState
        [Lifecycle.LEvent.run { electionId := 1, isElectionActive := some true } (some "tok"),
         Lifecycle.LEvent.run { electionId := 2, isElectionActive := some true } (some "tok"),
         Lifecycle.LEvent.run { electionId := 1, isElectionActive := some true } (some "tok"),
         Lifecycle.LEvent.unmount]) = true ∧
    (Lifecycle.stepManager { current := some 0, nextId := 1 } Lifecycle.LEvent.unmount).2 =
      [Lifecycle.LAction.closeHandle 0] :=
  ⟨claim_C3_single_subscription.1 _,
   (claim_C3_single_subscription.2.1 { current := some 0, nextId := 1 } 0 rfl).2⟩

/-- C4. For a defined-but-inactive election (guard passing: truthy token,
    nonzero electionId, isElectionActive = false) the effect issues the
    snapshot fetch only: no connection is built, no transport start is
    attempted, and the status is immediately reported as disconnected. -/
theorem claim_C4_inactive_no_transport (electionId : Int) (token : Option String)
    (v : Hook.HookView) (htok : tokenTruthy token = true) (hid : electionId ≠ 0) :
    Hook.runEffectBody electionId token (some false) v =
      { view := { v with connectionStatus := ConnectionStatus.disconnected },
        actions := [Action.fetchSnapshot], connectionBuilt := false } ∧
    Action.buildConnection ∉ (Hook.runEffectBody electionId token (some false) v).actions ∧
    Action.startTransport ∉ (Hook.runEffectBody electionId token (some false) v).actions := by
  have hmain : Hook.runEffectBody electionId token (some false) v =
      { view := { v with connectionStatus := ConnectionStatus.disconnected },
        actions := [Action.fetchSnapshot], connectionBuilt := false } := by
    simp [Hook.runEffectBody, htok, hid]
  refine ⟨hmain, ?_, ?_⟩ <;> rw [hmain] <;> simp

/-- C4, witness at a concrete inactive election. -/
theorem claim_C4_inactive_no_transport_witness :
    Hook.runEffectBody 5 (some "tok") (some false) Hook.initialHookView =
      { view := { results := [], connectionStatus := ConnectionStatus.disconnected,
                  isPulsing := false },
        actions := [Action.fetchSnapshot], connectionBuilt := false } :=
  (claim_C4_inactive_no_transport 5 (some "tok") Hook.initialHookView (by decide)
    (by decide)).1

/-- C5. Every applied push replaces the exposed results wholesale with the
    pushed set: in the canonical hook handler unconditionally, and in the
    part_010 variant for every mounted state and well-formed (array) payload.
    No field-level merge with earlier snapshots or pushes occurs. -/
theorem claim_C5_wholesale (v : Hook.HookView) (data : List VoteResult)
    (s : HookV2.HubState) (st : HubConnectionState) (hm : s.isMounted = true) :
    (Hook.handleReceiveResults v data).results = data ∧
    (HookV2.handleReceiveResults st (some data) s).results = data := by
  refine ⟨rfl, ?_⟩
  simp [HookV2.handleReceiveResults, HookV2.updateStatus, hm]

/-- C5, witness at a concrete state and push. -/
theorem claim_C5_wholesale_witness :
    (HookV2.handleReceiveResults HubConnectionState.Connected (some [])
      HookV2.initialHubState).results = ([] : List VoteResult) :=
  (claim_C5_wholesale Hook.initialHookView [] HookV2.initialHubState
    HubConnectionState.Connected rfl).2

/-- C6. From a connected view, a transport drop followed by reconnection
    success yields exactly the observed status sequence connected ->
    reconnecting -> connected, and on reconnection the client re-invokes
    JoinElectionGroup and GetLiveResults (each with a logged catch), in that
    order, with no other hub invocation during the sequence. -/
theorem claim_C6_reconnect (v : Hook.HookView)
    (h : v.connectionStatus = ConnectionStatus.connected) :
    v.connectionStatus ::
      Hook.statusTrace v [Hook.TransportEvent.reconnecting, Hook.TransportEvent.reconnected] =
      [ConnectionStatus.connected, ConnectionStatus.reconnecting, ConnectionStatus.connected] ∧
    Hook.eventActions v [Hook.TransportEvent.reconnecting, Hook.TransportEvent.reconnected] =
      [Action.invokeCatchLog "JoinElectionGroup", Action.invokeCatchLog "GetLiveResults"] := by
  constructor
  · simp [Hook.statusTrace, Hook.handleTransportEvent, Hook.stateMap, h]
  · simp [Hook.eventActions, Hook.handleTransportEvent]

/-- C6, witness at a concrete connected view. -/
theorem claim_C6_reconnect_witness :
    Hook.statusTrace
        { results := [], connectionStatus := ConnectionStatus.connected, isPulsing := false }
        [Hook.TransportEvent.reconnecting, Hook.TransportEvent.reconnected] =
      [ConnectionStatus.reconnecting, ConnectionStatus.connected] := by
  have h := (claim_C6_reconnect
    { results := [], connectionStatus := ConnectionStatus.connected, isPulsing := false }
    rfl).1
  simpa using congrArg List.tail h

/-- C7, counterexample. The claim says the consumer-facing connectionStatus
    only ever takes the values connected, reconnecting, disconnected, with
    the internal connecting state never exposed, including at startup. In
    the canonical hook the useState initial value is the fourth value
    connecting, and its stateMap sends the Connecting transport state to
    connecting rather than disconnected. -/
theorem claim_C7_counterexample :
    Hook.initialHookView.connectionStatus = ConnectionStatus.connecting ∧
    Hook.stateMap HubConnectionState.Connecting = ConnectionStatus.connecting ∧
    ConnectionStatus.connecting ≠ ConnectionStatus.connected ∧
    ConnectionStatus.connecting ≠ ConnectionStatus.reconnecting ∧
    ConnectionStatus.connecting ≠ ConnectionStatus.disconnected := by
  refine ⟨rfl, rfl, ?_, ?_, ?_⟩ <;> simp

/-- C7, amended. The canonical hook exposes connecting: it is the initial
    value of connectionStatus and the image of the Connecting transport
    state under its stateMap. Only the part_010 variant collapses connecting
    to disconnected before exposing it: its initial status is disconnected
    and its updateStatus never produces connecting from a state that did not
    already hold it. -/
theorem claim_C7_amended :
    Hook.initialHookView.connectionStatus = ConnectionStatus.connecting ∧
    Hook.stateMap HubConnectionState.Connecting = ConnectionStatus.connecting ∧
    HookV2.initialHubState.connectionStatus = ConnectionStatus.disconnected ∧
    (∀ (st : HubConnectionState) (p : Bool) (s : HookV2.HubState),
      s.connectionStatus ≠ ConnectionStatus.connecting →
      (HookV2.updateStatus st p s).connectionStatus ≠ ConnectionStatus.connecting) := by
  refine ⟨rfl, rfl, rfl, ?_⟩
  intro st p s hs
  by_cases hm : s.isMounted
  · cases st <;> simp [HookV2.updateStatus, HookV2.mapHubState, hm]
  · simpa [HookV2.updateStatus, hm] using hs

/-- C7, witness for the amended theorem: collapsing applied to the
    Connecting transport state at the initial part_010 state. -/
theorem claim_C7_amended_witness :
    (HookV2.updateStatus HubConnectionState.Connecting true
      HookV2.initialHubState).connectionStatus ≠ ConnectionStatus.connecting :=
  claim_C7_amended.2.2.2 HubConnectionState.Connecting true HookV2.initialHubState
    (by simp [HookV2.initialHubState])

/-- C8, counterexample. The claim says closing a subscription handle always
    attempts a graceful LeaveElectionGroup before terminating the transport.
    The canonical hook cleanup (useSignalR.ts lines 88-93) performs no leave
    invocation at all, and the results-page variant skips the leave whenever
    the connection is not currently in the Connected state. -/
theorem claim_C8_counterexample :
    Action.invokeCatchLog "LeaveElectionGroup" ∉ Hook.hookCleanupActions ∧
    Action.invoke "LeaveElectionGroup" ∉ Hook.hookCleanupActions ∧
    Page.pageCleanupActions HubConnectionState.Reconnecting = [Action.stopTransport] :=
  ⟨by simp [Hook.hookCleanupActions], by simp [Hook.hookCleanupActions], rfl⟩

/-- C8, amended. The canonical hook cleanup stops the transport with no
    group-leave. The results-page variant attempts LeaveElectionGroup before
    the stop only when the connection is currently Connected — with the
    failure caught and logged, never escalated — and in every state the
    cleanup ends by stopping the transport, so the local subscription is
    closed regardless of server acknowledgment. -/
theorem claim_C8_amended :
    Hook.hookCleanupActions = [Action.stopTransport] ∧
    Page.pageCleanupActions HubConnectionState.Connected =
      [Action.invokeCatchLog "LeaveElectionGroup", Action.stopTransport] ∧
    (∀ st : HubConnectionState, st ≠ HubConnectionState.Connected →
      Page.pageCleanupActions st = [Action.stopTransport]) ∧
    (∀ st : HubConnectionState,
      (Page.pageCleanupActions st).getLast? = some Action.stopTransport) := by
  refine ⟨rfl, rfl, ?_, ?_⟩
  · intro st h
    cases st
    case Connected => exact absurd rfl h
    all_goals rfl
  · intro st
    cases st <;> rfl

/-- C8, witness for the amended theorem at a disconnecting connection. -/
theorem claim_C8_amended_witness :
    Page.pageCleanupActions HubConnectionState.Disconnecting = [Action.stopTransport] :=
  claim_C8_amended.2.2.1 HubConnectionState.Disconnecting (by simp)

/-- C9, counterexample. The claim says a snapshot fetch failure is surfaced
    to the consumer as an explicit retryable error state distinct from
    connectionStatus, not merely logged. In the canonical hook the failure
    handler (useSignalR.ts lines 27-29) emits a console log and nothing
    else: the consumer-visible view — which has no error component at all —
    is returned completely unchanged. -/
theorem claim_C9_counterexample :
    Hook.fetchInitialResultsStep (Except.error "network error") Hook.initialHookView =
      (Hook.initialHookView,
       [Action.log "Failed to fetch initial results: network error"]) := rfl

/-- C9, amended. On snapshot fetch failure the canonical hook only logs to
    the console and retains the previous results, exposing no error state;
    the part_010 variant surfaces the failure as the error string
    "Initial Data Fetch: ..." in a field distinct from connectionStatus
    (which it leaves unchanged), likewise retaining the previous results. -/
theorem claim_C9_amended (v : Hook.HookView) (e : String) (s : HookV2.HubState)
    (hm : s.isMounted = true) :
    Hook.fetchInitialResultsStep (Except.error e) v =
      (v, [Action.log ("Failed to fetch initial results: " ++ e)]) ∧
    (HookV2.fetchInitialResults (Except.error e) s).results = s.results ∧
    (HookV2.fetchInitialResults (Except.error e) s).error =
      some ("Initial Data Fetch: " ++ e) ∧
    (HookV2.fetchInitialResults (Except.error e) s).connectionStatus = s.connectionStatus := by
  refine ⟨rfl, ?_, ?_, ?_⟩ <;>
    simp [HookV2.fetchInitialResults, HookV2.handleError, hm]

/-- C9, witness for the amended theorem at a concrete failure. -/
theorem claim_C9_amended_witness :
    (HookV2.fetchInitialResults (Except.error "boom") HookV2.initialHubState).error =
      some "Initial Data Fetch: boom" :=
  (claim_C9_amended Hook.initialHookView "boom" HookV2.initialHubState rfl).2.2.1

/-- C10. When the token is null, the electionId is zero (falsy), or
    isElectionActive is undefined, the effect performs no snapshot fetch and
    builds no connection: it emits no action at all, sets connectionStatus
    to disconnected, and leaves results as the empty array. -/
theorem claim_C10_guard (electionId : Int) (token : Option String)
    (isElectionActive : Option Bool)
    (h : token = none ∨ electionId = 0 ∨ isElectionActive = none) :
    Hook.runEffectBody electionId token isElectionActive Hook.initialHookView =
      { view := { results := [], connectionStatus := ConnectionStatus.disconnected,
                  isPulsing := false },
        actions := [], connectionBuilt := false } := by
  rcases h with h | h | h <;> subst h <;>
    simp [Hook.runEffectBody, Hook.initialHookView, tokenTruthy]

/-- C10, witness at a null token. -/
theorem claim_C10_guard_witness :
    Hook.runEffectBody 7 none (some true) Hook.initialHookView =
      { view := { results := [], connectionStatus := ConnectionStatus.disconnected,
                  isPulsing := false },
        actions := [], connectionBuilt := false } :=
  claim_C10_guard 7 none (some true) (Or.inl rfl)

end PollPulse
